import Mathlib

/-!
Verification of the environment lifecycle controller in
`misc/python/materialize/cloudtest/util/environment.py`.

The three operations (`create_environment_assignment`, `wait_for_environmentd`,
`delete_environment_assignment`) are embedded as pure functions over an explicit
"world" of external-collaborator behaviours (HTTP client, cluster resource
store, connectivity prober).  Each operation returns its result, the trace of
external calls it issued, and the config object as it leaves it.  Python
exceptions become an explicit `Failure` type; `Except Failure` models
raise/propagate semantics.
-/

/-- Python exception kinds that can flow through the lifecycle controller.
`assertionError` is the spec's `NotReadyYet`/`AssertionViolation`,
`httpError` is `requests.exceptions.HTTPError`, `retryExhausted` is the
Retry Engine's budget-exhaustion signal, and `valueError`, `keyError`,
`typeError`, `attributeError`, `notFound` model the corresponding Python
exceptions raised by parsing, dict access and the resource store. -/
inductive Failure where
  | assertionError
  | httpError
  | retryExhausted
  | valueError
  | keyError
  | typeError
  | attributeError
  | notFound
  deriving DecidableEq, Repr

/-- JSON values as returned by `response.json()`. -/
inductive Json where
  | null
  | bool (b : Bool)
  | num (n : Int)
  | str (s : String)
  | obj (fields : List (String × Json))
  | arr (elems : List Json)

/-- First-match association-list lookup, the semantics of Python `dict.get`
(a parsed JSON object has no duplicate keys). -/
def jlookup : List (String × Json) → String → Option Json
  | [], _ => none
  | (k, v) :: rest, key => if k = key then some v else jlookup rest key

/-- Python truthiness of a JSON value (`assert x`). -/
def truthy : Json → Bool
  | Json.null => false
  | Json.bool b => b
  | Json.num n => n != 0
  | Json.str s => !s.isEmpty
  | Json.obj fields => !fields.isEmpty
  | Json.arr elems => !elems.isEmpty

/-- Python `j[key]` on a JSON value: `KeyError` when the key is absent from a
dict, `TypeError` when `j` is not a dict. -/
def jIndex (j : Json) (key : String) : Except Failure Json :=
  match j with
  | Json.obj fields =>
    match jlookup fields key with
    | some v => Except.ok v
    | none => Except.error Failure.keyError
  | _ => Except.error Failure.typeError

/-- Python `j.get(key)` on a JSON value: `none` when absent,
`AttributeError` when `j` is not a dict. -/
def jGet (j : Json) (key : String) : Except Failure (Option Json) :=
  match j with
  | Json.obj fields => Except.ok (jlookup fields key)
  | _ => Except.error Failure.attributeError

/-- `config.auth`: the organization identity. -/
structure Auth where
  organization_id : String

/-- `config.controllers.region_api_server`: endpoint resolution for the
region API; `base_url` is the value of `configured_base_url()`. -/
structure RegionApiServer where
  base_url : String

/-- `config.controllers`. -/
structure Controllers where
  region_api_server : RegionApiServer

/-- `EnvironmentConfig`: the configuration bundle passed into every
operation. -/
structure EnvironmentConfig where
  auth : Auth
  controllers : Controllers
  environment_context : String
  system_context : String

/-- One external call issued by an operation, recorded in order. -/
inductive Event where
  | patchRegion (baseUrl path : String) (body : List (String × String))
  | httpGet (baseUrl path : String)
  | httpDelete (baseUrl path : String) (timeout : Nat)
  | kubectlGet (context : String) (ns : Option String)
      (resourceType resourceName : String)
  | kubectlGetOrNone (context : String) (ns : Option String)
      (resourceType resourceName : String)
  | connectProbe (host : String) (port : Nat) (timeout : Nat)
  deriving DecidableEq, Repr

/-- Modelled from the spec: the Retry Engine `retry(operation, budget,
tolerated_failure_kinds)` of `cloudtest/util/common.py`, whose source is not
part of this tree.  Per the spec it repeatedly invokes the operation: a
success returns immediately, a failure of a tolerated kind is retried until
the budget of attempts is exhausted (then `RetryExhausted`), and a failure of
a non-tolerated kind propagates at once.  `start` is the index of the next
attempt and each attempt's trace is concatenated in order. -/
def retryTr {α ε : Type} (op : Nat → Except Failure α × List ε)
    (tolerated : List Failure) : Nat → Nat → Except Failure α × List ε
  | 0, _ => (Except.error Failure.retryExhausted, [])
  | n + 1, start =>
    match op start with
    | (Except.ok a, evs) => (Except.ok a, evs)
    | (Except.error f, evs) =>
      if f ∈ tolerated then
        let r := retryTr op tolerated n (start + 1)
        (r.1, evs ++ r.2)
      else (Except.error f, evs)

/-- Modelled from the spec: `retry` run from the first attempt. -/
def retry {α ε : Type} (op : Nat → Except Failure α × List ε) (budget : Nat)
    (tolerated : List Failure) : Except Failure α × List ε :=
  retryTr op tolerated budget 0

/-- `retry` of a pure operation, tracing the index of every attempt made. -/
def retryPure {α : Type} (op : Nat → Except Failure α) (budget : Nat)
    (tolerated : List Failure) : Except Failure α × List Nat :=
  retry (fun k => (op k, [k])) budget tolerated

/-- `f"{organization_id}-0"`: the derived assignment id. -/
def environmentAssignmentId (organization_id : String) : String :=
  organization_id ++ "-0"

/-- `f"environment-{environment_assignment}"`: the derived environment
resource name. -/
def environmentName (organization_id : String) : String :=
  "environment-" ++ environmentAssignmentId organization_id

/-- The outcome of a lifecycle operation: its result, the ordered trace of
external calls it issued, and the config object as the operation leaves it
(config mutation, were there any, would be visible here). -/
structure OpResult (α : Type) where
  result : Except Failure α
  trace : List Event
  config : EnvironmentConfig

/-- An opaque resource representation from the cluster resource store. -/
abbrev Resource := List (String × String)

/-- The external-collaborator behaviours visible to
`create_environment_assignment`: the PATCH outcome, the per-attempt outcome
of the polled `kubectl get environment`, and the outcome of the final
`kubectl get environmentassignment`. -/
structure CreateWorld where
  patchResult : Except Failure Unit
  envGet : Nat → Except Failure Resource
  assignGet : Except Failure Resource

/-- Modelled from the spec: `kubectl_get_retry(context, namespace,
resource_type, resource_name, max_attempts)` of `cloudtest/util/kubectl.py`,
whose source is not part of this tree.  Per the spec it polls the resource
store with a bounded retry, tolerating "not found yet" as retryable. -/
def kubectl_get_retry (context : String) (ns : Option String)
    (resourceType resourceName : String) (get : Nat → Except Failure Resource)
    (maxAttempts : Nat) : Except Failure Resource × List Event :=
  retry (fun k => (get k, [Event.kubectlGet context ns resourceType resourceName]))
    maxAttempts [Failure.notFound]

/-- `create_environment_assignment(config, image)`: compute the derived
names, PATCH `/api/region` once (body carries `environmentdImageRef` exactly
when an image is supplied), poll the resource store for the environment
resource with a 10-attempt retry, then fetch the environmentassignment
resource once and return it. -/
def create_environment_assignment (config : EnvironmentConfig)
    (w : CreateWorld) (image : Option String) : OpResult Resource :=
  let environment_assignment := environmentAssignmentId config.auth.organization_id
  let environment := environmentName config.auth.organization_id
  let json : List (String × String) :=
    match image with
    | some i => [("environmentdImageRef", i)]
    | none => []
  let patchEv := Event.patchRegion config.controllers.region_api_server.base_url
    "/api/region" json
  match w.patchResult with
  | Except.error f => ⟨Except.error f, [patchEv], config⟩
  | Except.ok _ =>
    match kubectl_get_retry config.environment_context none "environment"
        environment w.envGet 10 with
    | (Except.error f, evs) => ⟨Except.error f, patchEv :: evs, config⟩
    | (Except.ok _, evs) =>
      let getEv := Event.kubectlGet config.system_context none
        "environmentassignment" environment_assignment
      match w.assignGet with
      | Except.error f => ⟨Except.error f, patchEv :: evs ++ [getEv], config⟩
      | Except.ok res => ⟨Except.ok res, patchEv :: evs ++ [getEv], config⟩

/-- The external-collaborator behaviours visible to `wait_for_environmentd`:
the JSON payload (or failure) of each GET `/api/region` attempt, and the
outcome of `wait_for_connectable` on a given host and port. -/
structure WaitWorld where
  getJson : Nat → Except Failure Json
  connect : String → Nat → Except Failure Unit

/-- The body of the `get_environment` closure inside `wait_for_environmentd`,
applied to the outcome of one GET: `assert region_info`,
`assert region_info.get("resolvable")`, `assert region_info.get("sqlAddress")`,
then return the payload.  A failed assert is `AssertionError`; `.get` on a
truthy non-dict is `AttributeError`. -/
def probeCheck (r : Except Failure Json) : Except Failure Json :=
  match r with
  | Except.error f => Except.error f
  | Except.ok j =>
    match jGet j "regionInfo" with
    | Except.error f => Except.error f
    | Except.ok none => Except.error Failure.assertionError
    | Except.ok (some regionInfo) =>
      if truthy regionInfo then
        match jGet regionInfo "resolvable" with
        | Except.error f => Except.error f
        | Except.ok resolvable =>
          if (resolvable.map truthy).getD false then
            match jGet regionInfo "sqlAddress" with
            | Except.error f => Except.error f
            | Except.ok sqlAddress =>
              if (sqlAddress.map truthy).getD false then Except.ok j
              else Except.error Failure.assertionError
          else Except.error Failure.assertionError
      else Except.error Failure.assertionError

/-- Python `s.split(sep)` for a one-character separator, over the
character list of the string: splitting never drops empty parts and the
empty string yields one empty part. -/
def splitOnChar (c : Char) : List Char → List (List Char)
  | [] => [[]]
  | x :: xs =>
    match splitOnChar c xs with
    | [] => if x = c then [[], []] else [[x]]
    | y :: ys => if x = c then [] :: y :: ys else (x :: y) :: ys

/-- Python `int(s)` on an unsigned decimal numeral given as a character
list: `none` models the `ValueError` raised on an empty string or a
non-digit character. -/
def digitsToNat : List Char → Nat → Option Nat
  | [], acc => some acc
  | c :: cs, acc =>
    if 48 ≤ c.toNat ∧ c.toNat ≤ 57 then digitsToNat cs (acc * 10 + (c.toNat - 48))
    else none

/-- `pgwire_url.split(":")` followed by two-element unpacking and
`int(pgwire_port)`: `none` models the `ValueError` Python raises when the
split does not yield exactly two parts or the port is not a decimal
numeral. -/
def parseHostPort (s : String) : Option (String × Nat) :=
  match splitOnChar ':' s.data with
  | [host, port] =>
    if port.isEmpty then none
    else (digitsToNat port 0).map (fun n => (String.mk host, n))
  | _ => none

/-- `wait_for_environmentd(config)`: retry the readiness probe with a budget
of 600 attempts tolerating only `AssertionError`, then extract
`regionInfo.sqlAddress` from the successful payload, split it into host and
port, probe connectivity with a 300 second bound, and return the payload. -/
def wait_for_environmentd (config : EnvironmentConfig) (w : WaitWorld) :
    OpResult Json :=
  let getEv := Event.httpGet config.controllers.region_api_server.base_url
    "/api/region"
  let (r, evs) := retry (fun k => (probeCheck (w.getJson k), [getEv])) 600
    [Failure.assertionError]
  match r with
  | Except.error f => ⟨Except.error f, evs, config⟩
  | Except.ok environment_json =>
    match jIndex environment_json "regionInfo" with
    | Except.error f => ⟨Except.error f, evs, config⟩
    | Except.ok regionInfo =>
      match jIndex regionInfo "sqlAddress" with
      | Except.error f => ⟨Except.error f, evs, config⟩
      | Except.ok (Json.str pgwire_url) =>
        match parseHostPort pgwire_url with
        | none => ⟨Except.error Failure.valueError, evs, config⟩
        | some (pgwire_host, pgwire_port) =>
          let probeEv := Event.connectProbe pgwire_host pgwire_port 300
          match w.connect pgwire_host pgwire_port with
          | Except.error f => ⟨Except.error f, evs ++ [probeEv], config⟩
          | Except.ok _ => ⟨Except.ok environment_json, evs ++ [probeEv], config⟩
      | Except.ok _ => ⟨Except.error Failure.attributeError, evs, config⟩

/-- The external-collaborator behaviours visible to
`delete_environment_assignment`: the per-attempt outcome of the DELETE, and
the three `kubectl_get_or_none` answers (namespace, environment,
environmentassignment). -/
structure DeleteWorld where
  deleteResult : Nat → Except Failure Unit
  namespaceGet : Option Resource
  envGet : Option Resource
  assignGet : Option Resource

/-- `delete_environment_assignment(config)`: compute the derived names,
DELETE `/api/region` with a 305 second timeout under a 10-attempt retry
tolerating only `HTTPError`, then assert in order that the namespace, the
environment resource and the environmentassignment resource are each absent
(`kubectl_get_or_none` returning `None`); the first one still present raises
`AssertionError`. -/
def delete_environment_assignment (config : EnvironmentConfig)
    (w : DeleteWorld) : OpResult Unit :=
  let environment_assignment := environmentAssignmentId config.auth.organization_id
  let environment := environmentName config.auth.organization_id
  let deleteEv := Event.httpDelete config.controllers.region_api_server.base_url
    "/api/region" 305
  let (r, evs) := retry (fun k => (w.deleteResult k, [deleteEv])) 10
    [Failure.httpError]
  match r with
  | Except.error f => ⟨Except.error f, evs, config⟩
  | Except.ok _ =>
    let ev1 := Event.kubectlGetOrNone config.environment_context none
      "namespace" environment
    let ev2 := Event.kubectlGetOrNone config.environment_context none
      "environment" environment
    let ev3 := Event.kubectlGetOrNone config.system_context none
      "environmentassignment" environment_assignment
    match w.namespaceGet with
    | some _ => ⟨Except.error Failure.assertionError, evs ++ [ev1], config⟩
    | none =>
      match w.envGet with
      | some _ => ⟨Except.error Failure.assertionError, evs ++ [ev1, ev2], config⟩
      | none =>
        match w.assignGet with
        | some _ =>
          ⟨Except.error Failure.assertionError, evs ++ [ev1, ev2, ev3], config⟩
        | none => ⟨Except.ok (), evs ++ [ev1, ev2, ev3], config⟩

/-- The trace accumulated by `n` consecutive retry attempts beginning at
attempt index `start`. -/
def retryTrace {α ε : Type} (op : Nat → Except Failure α × List ε) :
    Nat → Nat → List ε
  | _, 0 => []
  | start, n + 1 => (op start).2 ++ retryTrace op (start + 1) n

/-- The payload shapes the readiness probe treats as "not ready yet": a
missing or falsy `regionInfo`, a `regionInfo` dict with a missing or falsy
`resolvable`, or one with a missing or falsy `sqlAddress`.  Exactly these
make `get_environment` raise `AssertionError`. -/
def notReadySignal (j : Json) : Bool :=
  match j with
  | Json.obj fields =>
    match jlookup fields "regionInfo" with
    | none => true
    | some regionInfo =>
      if truthy regionInfo then
        match regionInfo with
        | Json.obj rfields =>
          (match jlookup rfields "resolvable" with
           | none => true
           | some r =>
             if truthy r then
               match jlookup rfields "sqlAddress" with
               | none => true
               | some sa => !truthy sa
             else true)
        | _ => false
      else true
  | _ => false

/-- A concrete configuration used to instantiate the general theorems. -/
def testConfig : EnvironmentConfig :=
  ⟨⟨"org1"⟩, ⟨⟨"http://region-api"⟩⟩, "env-ctx", "sys-ctx"⟩

/-- A concrete ready payload: `{"regionInfo": {"resolvable": true,
"sqlAddress": "10.0.0.5:6875"}}`. -/
def readyPayload : Json :=
  Json.obj [("regionInfo",
    Json.obj [("resolvable", Json.bool true),
              ("sqlAddress", Json.str "10.0.0.5:6875")])]

/-- A concrete not-ready payload: `{"regionInfo": {"resolvable": false}}`. -/
def notReadyPayload : Json :=
  Json.obj [("regionInfo", Json.obj [("resolvable", Json.bool false)])]

/-- A concrete payload that passes the readiness assertions but whose
`sqlAddress` has no ":" separator. -/
def badAddressPayload : Json :=
  Json.obj [("regionInfo",
    Json.obj [("resolvable", Json.bool true),
              ("sqlAddress", Json.str "10.0.0.5")])]

theorem retryTr_tolerated_steps {α ε : Type} (op : Nat → Except Failure α × List ε)
    (tolerated : List Failure) (K m : Nat) :
    ∀ start, (∀ k < K, ∃ f ∈ tolerated, (op (start + k)).1 = Except.error f) →
    retryTr op tolerated (K + m) start =
      ((retryTr op tolerated m (start + K)).1,
        retryTrace op start K ++ (retryTr op tolerated m (start + K)).2) := by
  induction K with
  | zero =>
    intro start _
    simp [retryTrace]
  | succ K ih =>
    intro start hK
    obtain ⟨f, hf, hop⟩ := hK 0 (Nat.succ_pos K)
    have h0 : (op start).1 = Except.error f := by simpa using hop
    rcases hEq : op start with ⟨r, evs⟩
    rw [hEq] at h0
    simp only at h0
    subst h0
    have hadd : K + 1 + m = (K + m) + 1 := by omega
    rw [hadd]
    simp only [retryTr, hEq, if_pos hf]
    have hK' : ∀ k < K, ∃ g ∈ tolerated, (op (start + 1 + k)).1 = Except.error g := by
      intro k hk
      have h1 := hK (k + 1) (by omega)
      rwa [show start + (k + 1) = start + 1 + k by omega] at h1
    rw [ih (start + 1) hK']
    simp only [retryTrace, hEq, List.append_assoc]
    rw [show start + 1 + K = start + (K + 1) by omega]

theorem retry_success_at {α ε : Type} (op : Nat → Except Failure α × List ε)
    (tolerated : List Failure) (budget K : Nat) (a : α)
    (hK : K < budget)
    (hpre : ∀ k < K, ∃ f ∈ tolerated, (op k).1 = Except.error f)
    (hok : (op K).1 = Except.ok a) :
    retry op budget tolerated = (Except.ok a, retryTrace op 0 K ++ (op K).2) := by
  have hb : budget = K + (budget - K - 1 + 1) := by omega
  rw [retry, hb, retryTr_tolerated_steps op tolerated K _ 0
    (fun k hk => by simpa using hpre k hk)]
  rcases hEq : op K with ⟨r, evs⟩
  rw [hEq] at hok
  simp only at hok
  subst hok
  simp only [Nat.zero_add, retryTr, hEq]

theorem retry_error_at {α ε : Type} (op : Nat → Except Failure α × List ε)
    (tolerated : List Failure) (budget K : Nat) (f : Failure)
    (hK : K < budget)
    (hpre : ∀ k < K, ∃ g ∈ tolerated, (op k).1 = Except.error g)
    (herr : (op K).1 = Except.error f) (hnt : f ∉ tolerated) :
    retry op budget tolerated = (Except.error f, retryTrace op 0 K ++ (op K).2) := by
  have hb : budget = K + (budget - K - 1 + 1) := by omega
  rw [retry, hb, retryTr_tolerated_steps op tolerated K _ 0
    (fun k hk => by simpa using hpre k hk)]
  rcases hEq : op K with ⟨r, evs⟩
  rw [hEq] at herr
  simp only at herr
  subst herr
  simp only [Nat.zero_add, retryTr, hEq, if_neg hnt]

theorem retry_exhausts {α ε : Type} (op : Nat → Except Failure α × List ε)
    (tolerated : List Failure) (budget : Nat)
    (h : ∀ k < budget, ∃ f ∈ tolerated, (op k).1 = Except.error f) :
    retry op budget tolerated =
      (Except.error Failure.retryExhausted, retryTrace op 0 budget) := by
  have hb : budget = budget + 0 := by omega
  rw [retry, hb, retryTr_tolerated_steps op tolerated budget 0 0
    (fun k hk => by simpa using h k hk)]
  simp [retryTr]

theorem retryTrace_const {α ε : Type} (op : Nat → Except Failure α × List ε)
    (ev : ε) (h : ∀ k, (op k).2 = [ev]) :
    ∀ n start, retryTrace op start n = List.replicate n ev := by
  intro n
  induction n with
  | zero => intro start; rfl
  | succ n ih => intro start; simp [retryTrace, h, ih, List.replicate_succ]

theorem retryTrace_length {α ε : Type} (op : Nat → Except Failure α × List ε)
    (h : ∀ k, (op k).2.length = 1) :
    ∀ n start, (retryTrace op start n).length = n := by
  intro n
  induction n with
  | zero => intro start; rfl
  | succ n ih => intro start; simp [retryTrace, h, ih]; omega


theorem probeCheck_notReady (j : Json) (h : notReadySignal j = true) :
    probeCheck (Except.ok j) = Except.error Failure.assertionError := by
  cases j with
  | obj fields =>
    simp only [notReadySignal] at h
    simp only [probeCheck, jGet]
    cases hri : jlookup fields "regionInfo" with
    | none => rfl
    | some ri =>
      rw [hri] at h
      dsimp only at h ⊢
      by_cases ht : truthy ri
      · rw [if_pos ht] at h
        rw [if_pos ht]
        cases ri with
        | obj rfields =>
          dsimp only [jGet] at h ⊢
          cases hr : jlookup rfields "resolvable" with
          | none => simp
          | some r =>
            rw [hr] at h
            dsimp only at h ⊢
            by_cases htr : truthy r
            · rw [if_pos htr] at h
              simp only [htr, Option.map_some', Option.getD_some, if_true]
              cases hs : jlookup rfields "sqlAddress" with
              | none => simp
              | some sa =>
                rw [hs] at h
                dsimp only at h
                have hsa : truthy sa = false := by simpa using h
                simp [hsa]
            · simp [htr]
        | null => simp at h
        | bool b => simp at h
        | num n => simp at h
        | str s => simp at h
        | arr elems => simp at h
      · simp [ht]
  | null => simp [notReadySignal] at h
  | bool b => simp [notReadySignal] at h
  | num n => simp [notReadySignal] at h
  | str s => simp [notReadySignal] at h
  | arr elems => simp [notReadySignal] at h

/-- C1: for every config, `wait_for_environmentd` repeatedly issues the GET
readiness probe, treating a missing `regionInfo`, a non-truthy `resolvable`
or a missing `sqlAddress` as the retryable not-ready signal within a budget
of 600 attempts; once the probe succeeds it returns the full JSON payload of
the successful response and probes data-plane connectivity against the host
and port parsed from `regionInfo.sqlAddress` with a 300 second bound. -/
theorem wait_for_environmentd_ready (config : EnvironmentConfig)
    (w : WaitWorld) (K : Nat) (j ri : Json) (url host : String) (port : Nat)
    (hK : K < 600)
    (hnotready : ∀ k < K, ∃ jk, w.getJson k = Except.ok jk ∧ notReadySignal jk = true)
    (hready : probeCheck (w.getJson K) = Except.ok j)
    (hri : jIndex j "regionInfo" = Except.ok ri)
    (hsa : jIndex ri "sqlAddress" = Except.ok (Json.str url))
    (hparse : parseHostPort url = some (host, port))
    (hconn : w.connect host port = Except.ok ()) :
    wait_for_environmentd config w =
      ⟨Except.ok j,
        List.replicate (K + 1)
          (Event.httpGet config.controllers.region_api_server.base_url "/api/region")
          ++ [Event.connectProbe host port 300],
        config⟩ := by
  have hretry : retry
      (fun k => (probeCheck (w.getJson k),
        [Event.httpGet config.controllers.region_api_server.base_url "/api/region"]))
      600 [Failure.assertionError] =
      (Except.ok j,
        List.replicate K
            (Event.httpGet config.controllers.region_api_server.base_url "/api/region")
          ++ [Event.httpGet config.controllers.region_api_server.base_url "/api/region"]) := by
    have hpre : ∀ k < K, ∃ f ∈ [Failure.assertionError],
        ((fun k => (probeCheck (w.getJson k),
          [Event.httpGet config.controllers.region_api_server.base_url "/api/region"])) k).1 =
          Except.error f := by
      intro k hk
      obtain ⟨jk, hjk, hnr⟩ := hnotready k hk
      refine ⟨Failure.assertionError, by simp, ?_⟩
      show probeCheck (w.getJson k) = Except.error Failure.assertionError
      rw [hjk]
      exact probeCheck_notReady jk hnr
    have h1 := retry_success_at _ [Failure.assertionError] 600 K j hK hpre hready
    rw [h1, retryTrace_const _
      (Event.httpGet config.controllers.region_api_server.base_url "/api/region")
      (fun _ => rfl) K 0]
  simp only [wait_for_environmentd]
  rw [hretry]
  dsimp only
  rw [hri]
  dsimp only
  rw [hsa]
  dsimp only
  rw [hparse]
  dsimp only
  rw [hconn]
  simp [List.replicate_succ']

/-- Witness for C1: one not-ready response, then the ready response with
`sqlAddress` equal to "10.0.0.5:6875"; the probe is issued twice and
connectivity is probed against host "10.0.0.5" and port 6875. -/
theorem wait_for_environmentd_ready_witness :
    wait_for_environmentd testConfig
      ⟨fun k => if k = 0 then Except.ok notReadyPayload else Except.ok readyPayload,
       fun _ _ => Except.ok ()⟩ =
      ⟨Except.ok readyPayload,
        List.replicate 2 (Event.httpGet "http://region-api" "/api/region")
          ++ [Event.connectProbe "10.0.0.5" 6875 300],
        testConfig⟩ := by
  exact wait_for_environmentd_ready testConfig _ 1 readyPayload
    (Json.obj [("resolvable", Json.bool true),
               ("sqlAddress", Json.str "10.0.0.5:6875")])
    "10.0.0.5:6875" "10.0.0.5" 6875 (by decide)
    (by
      intro k hk
      have hk0 : k = 0 := by omega
      subst hk0
      exact ⟨notReadyPayload, rfl, rfl⟩)
    rfl rfl rfl (by rfl) rfl

/-- C10: a payload that passes the readiness assertions but whose
`sqlAddress` does not consist of a host, exactly one ":", and a decimal
port makes `wait_for_environmentd` fail with an unhandled `ValueError`
after control-plane readiness has already been confirmed, before any
connectivity probe is issued. -/
theorem wait_for_environmentd_bad_sqlAddress (config : EnvironmentConfig)
    (w : WaitWorld) (j ri : Json) (url : String)
    (hready : probeCheck (w.getJson 0) = Except.ok j)
    (hri : jIndex j "regionInfo" = Except.ok ri)
    (hsa : jIndex ri "sqlAddress" = Except.ok (Json.str url))
    (hbad : parseHostPort url = none) :
    wait_for_environmentd config w =
      ⟨Except.error Failure.valueError,
        [Event.httpGet config.controllers.region_api_server.base_url "/api/region"],
        config⟩ := by
  have hretry : retry
      (fun k => (probeCheck (w.getJson k),
        [Event.httpGet config.controllers.region_api_server.base_url "/api/region"]))
      600 [Failure.assertionError] =
      (Except.ok j,
        [Event.httpGet config.controllers.region_api_server.base_url "/api/region"]) := by
    have h1 := retry_success_at
      (fun k => (probeCheck (w.getJson k),
        [Event.httpGet config.controllers.region_api_server.base_url "/api/region"]))
      [Failure.assertionError] 600 0 j (by decide)
      (fun k hk => absurd hk (by omega)) hready
    simpa [retryTrace] using h1
  simp only [wait_for_environmentd]
  rw [hretry]
  dsimp only
  rw [hri]
  dsimp only
  rw [hsa]
  dsimp only
  rw [hbad]

/-- Witness for C10: a first response that is ready except that its
`sqlAddress` "10.0.0.5" carries no ":" separator; the operation fails with
`ValueError` after the single successful readiness probe. -/
theorem wait_for_environmentd_bad_sqlAddress_witness :
    wait_for_environmentd testConfig
      ⟨fun _ => Except.ok badAddressPayload, fun _ _ => Except.ok ()⟩ =
      ⟨Except.error Failure.valueError,
        [Event.httpGet "http://region-api" "/api/region"], testConfig⟩ := by
  exact wait_for_environmentd_bad_sqlAddress testConfig _ badAddressPayload
    (Json.obj [("resolvable", Json.bool true), ("sqlAddress", Json.str "10.0.0.5")])
    "10.0.0.5" rfl rfl rfl rfl

/-- C2: when the PATCH to `/api/region` fails with `HttpError`,
`create_environment_assignment` raises it immediately: the trace holds
exactly the one PATCH event, so no resource-store poll and no
environmentassignment fetch happen and the PATCH is never retried. -/
theorem create_environment_assignment_patch_failure (config : EnvironmentConfig)
    (w : CreateWorld) (image : Option String)
    (h : w.patchResult = Except.error Failure.httpError) :
    create_environment_assignment config w image =
      ⟨Except.error Failure.httpError,
        [Event.patchRegion config.controllers.region_api_server.base_url "/api/region"
          (match image with
           | some i => [("environmentdImageRef", i)]
           | none => [])],
        config⟩ := by
  simp only [create_environment_assignment]
  rw [h]

/-- Witness for C2: an HTTP 500 PATCH answer makes the operation fail with
`HttpError` after the single PATCH call. -/
theorem create_environment_assignment_patch_failure_witness :
    create_environment_assignment testConfig
      ⟨Except.error Failure.httpError, fun _ => Except.ok [], Except.ok []⟩
      (some "img") =
      ⟨Except.error Failure.httpError,
        [Event.patchRegion "http://region-api" "/api/region"
          [("environmentdImageRef", "img")]],
        testConfig⟩ :=
  create_environment_assignment_patch_failure testConfig _ (some "img") rfl

/-- C8: with a successful PATCH, `create_environment_assignment` sends a
body holding `environmentdImageRef` exactly when an image is supplied,
polls the environment resource with a 10-attempt retry tolerating
not-found, then fetches the environmentassignment resource exactly once
and returns it. -/
theorem create_environment_assignment_pipeline (config : EnvironmentConfig)
    (w : CreateWorld) (image : Option String) (K : Nat)
    (envRes assignRes : Resource)
    (hpatch : w.patchResult = Except.ok ())
    (hK : K < 10)
    (hpre : ∀ k < K, w.envGet k = Except.error Failure.notFound)
    (henv : w.envGet K = Except.ok envRes)
    (hassign : w.assignGet = Except.ok assignRes) :
    create_environment_assignment config w image =
      ⟨Except.ok assignRes,
        Event.patchRegion config.controllers.region_api_server.base_url "/api/region"
            (match image with
             | some i => [("environmentdImageRef", i)]
             | none => [])
          :: (List.replicate (K + 1)
                (Event.kubectlGet config.environment_context none "environment"
                  (environmentName config.auth.organization_id))
              ++ [Event.kubectlGet config.system_context none "environmentassignment"
                  (environmentAssignmentId config.auth.organization_id)]),
        config⟩ := by
  have hkr : kubectl_get_retry config.environment_context none "environment"
      (environmentName config.auth.organization_id) w.envGet 10 =
      (Except.ok envRes,
        List.replicate (K + 1)
          (Event.kubectlGet config.environment_context none "environment"
            (environmentName config.auth.organization_id))) := by
    unfold kubectl_get_retry
    have h1 := retry_success_at
      (fun k => (w.envGet k,
        [Event.kubectlGet config.environment_context none "environment"
          (environmentName config.auth.organization_id)]))
      [Failure.notFound] 10 K envRes hK
      (fun k hk => ⟨Failure.notFound, by simp, by simpa using hpre k hk⟩)
      henv
    rw [h1, retryTrace_const _
      (Event.kubectlGet config.environment_context none "environment"
        (environmentName config.auth.organization_id))
      (fun _ => rfl) K 0]
    simp [List.replicate_succ']
  simp only [create_environment_assignment]
  rw [hpatch]
  dsimp only
  rw [hkr]
  dsimp only
  rw [hassign]
  simp

/-- Witness for C8: a first not-found poll, then the environment resource,
then the environmentassignment resource; the PATCH body is empty since no
image is supplied. -/
theorem create_environment_assignment_pipeline_witness :
    create_environment_assignment testConfig
      ⟨Except.ok (),
       fun k => if k = 0 then Except.error Failure.notFound
                else Except.ok [("kind", "Environment")],
       Except.ok [("kind", "EnvironmentAssignment")]⟩ none =
      ⟨Except.ok [("kind", "EnvironmentAssignment")],
        Event.patchRegion "http://region-api" "/api/region" []
          :: (List.replicate 2
                (Event.kubectlGet "env-ctx" none "environment" "environment-org1-0")
              ++ [Event.kubectlGet "sys-ctx" none "environmentassignment" "org1-0"]),
        testConfig⟩ := by
  exact create_environment_assignment_pipeline testConfig _ none 1
    [("kind", "Environment")] [("kind", "EnvironmentAssignment")] rfl (by decide)
    (by
      intro k hk
      have hk0 : k = 0 := by omega
      subst hk0
      rfl)
    rfl rfl

/-- C3: once the DELETE has succeeded, `delete_environment_assignment`
performs the fetch-or-none absence checks for the namespace, the
environment resource and the environmentassignment resource in order and
asserts each absent: it returns nothing exactly when all three are absent,
and if any of the three is still present it raises the assertion
violation at that check. -/
theorem delete_environment_assignment_absence_checks (config : EnvironmentConfig)
    (w : DeleteWorld)
    (hdel : w.deleteResult 0 = Except.ok ()) :
    (w.namespaceGet = none → w.envGet = none → w.assignGet = none →
      delete_environment_assignment config w =
        ⟨Except.ok (),
          [Event.httpDelete config.controllers.region_api_server.base_url
              "/api/region" 305,
           Event.kubectlGetOrNone config.environment_context none "namespace"
             (environmentName config.auth.organization_id),
           Event.kubectlGetOrNone config.environment_context none "environment"
             (environmentName config.auth.organization_id),
           Event.kubectlGetOrNone config.system_context none "environmentassignment"
             (environmentAssignmentId config.auth.organization_id)],
          config⟩) ∧
    (∀ r, w.namespaceGet = some r →
      delete_environment_assignment config w =
        ⟨Except.error Failure.assertionError,
          [Event.httpDelete config.controllers.region_api_server.base_url
              "/api/region" 305,
           Event.kubectlGetOrNone config.environment_context none "namespace"
             (environmentName config.auth.organization_id)],
          config⟩) ∧
    (∀ r, w.namespaceGet = none → w.envGet = some r →
      delete_environment_assignment config w =
        ⟨Except.error Failure.assertionError,
          [Event.httpDelete config.controllers.region_api_server.base_url
              "/api/region" 305,
           Event.kubectlGetOrNone config.environment_context none "namespace"
             (environmentName config.auth.organization_id),
           Event.kubectlGetOrNone config.environment_context none "environment"
             (environmentName config.auth.organization_id)],
          config⟩) ∧
    (∀ r, w.namespaceGet = none → w.envGet = none → w.assignGet = some r →
      delete_environment_assignment config w =
        ⟨Except.error Failure.assertionError,
          [Event.httpDelete config.controllers.region_api_server.base_url
              "/api/region" 305,
           Event.kubectlGetOrNone config.environment_context none "namespace"
             (environmentName config.auth.organization_id),
           Event.kubectlGetOrNone config.environment_context none "environment"
             (environmentName config.auth.organization_id),
           Event.kubectlGetOrNone config.system_context none "environmentassignment"
             (environmentAssignmentId config.auth.organization_id)],
          config⟩) := by
  have hretry : retry
      (fun k => (w.deleteResult k,
        [Event.httpDelete config.controllers.region_api_server.base_url
          "/api/region" 305])) 10 [Failure.httpError] =
      (Except.ok (),
        [Event.httpDelete config.controllers.region_api_server.base_url
          "/api/region" 305]) := by
    have h1 := retry_success_at
      (fun k => (w.deleteResult k,
        [Event.httpDelete config.controllers.region_api_server.base_url
          "/api/region" 305]))
      [Failure.httpError] 10 0 () (by decide)
      (fun k hk => absurd hk (by omega)) hdel
    simpa [retryTrace] using h1
  refine ⟨?_, ?_, ?_, ?_⟩
  · intro h1 h2 h3
    simp only [delete_environment_assignment]
    rw [hretry]
    dsimp only
    rw [h1]
    dsimp only
    rw [h2]
    dsimp only
    rw [h3]
    simp
  · intro r h1
    simp only [delete_environment_assignment]
    rw [hretry]
    dsimp only
    rw [h1]
    simp
  · intro r h1 h2
    simp only [delete_environment_assignment]
    rw [hretry]
    dsimp only
    rw [h1]
    dsimp only
    rw [h2]
    simp
  · intro r h1 h2 h3
    simp only [delete_environment_assignment]
    rw [hretry]
    dsimp only
    rw [h1]
    dsimp only
    rw [h2]
    dsimp only
    rw [h3]
    simp

/-- Witness for C3: with everything absent the delete returns nothing after
the three checks; a still-present namespace stops it at the first check, a
still-present environment at the second, and a still-present
environmentassignment at the third (Scenario D), each with the assertion
violation. -/
theorem delete_environment_assignment_absence_checks_witness :
    (delete_environment_assignment testConfig
        ⟨fun _ => Except.ok (), none, none, none⟩ =
      ⟨Except.ok (),
        [Event.httpDelete "http://region-api" "/api/region" 305,
         Event.kubectlGetOrNone "env-ctx" none "namespace" "environment-org1-0",
         Event.kubectlGetOrNone "env-ctx" none "environment" "environment-org1-0",
         Event.kubectlGetOrNone "sys-ctx" none "environmentassignment" "org1-0"],
        testConfig⟩) ∧
    (delete_environment_assignment testConfig
        ⟨fun _ => Except.ok (), some [("kind", "Namespace")], none, none⟩ =
      ⟨Except.error Failure.assertionError,
        [Event.httpDelete "http://region-api" "/api/region" 305,
         Event.kubectlGetOrNone "env-ctx" none "namespace" "environment-org1-0"],
        testConfig⟩) ∧
    (delete_environment_assignment testConfig
        ⟨fun _ => Except.ok (), none, some [("kind", "Environment")], none⟩ =
      ⟨Except.error Failure.assertionError,
        [Event.httpDelete "http://region-api" "/api/region" 305,
         Event.kubectlGetOrNone "env-ctx" none "namespace" "environment-org1-0",
         Event.kubectlGetOrNone "env-ctx" none "environment" "environment-org1-0"],
        testConfig⟩) ∧
    (delete_environment_assignment testConfig
        ⟨fun _ => Except.ok (), none, none,
          some [("kind", "EnvironmentAssignment")]⟩ =
      ⟨Except.error Failure.assertionError,
        [Event.httpDelete "http://region-api" "/api/region" 305,
         Event.kubectlGetOrNone "env-ctx" none "namespace" "environment-org1-0",
         Event.kubectlGetOrNone "env-ctx" none "environment" "environment-org1-0",
         Event.kubectlGetOrNone "sys-ctx" none "environmentassignment" "org1-0"],
        testConfig⟩) :=
  ⟨(delete_environment_assignment_absence_checks testConfig _ rfl).1 rfl rfl rfl,
   (delete_environment_assignment_absence_checks testConfig _ rfl).2.1
     [("kind", "Namespace")] rfl,
   (delete_environment_assignment_absence_checks testConfig _ rfl).2.2.1
     [("kind", "Environment")] rfl rfl,
   (delete_environment_assignment_absence_checks testConfig _ rfl).2.2.2
     [("kind", "EnvironmentAssignment")] rfl rfl rfl⟩


/-- C7: the DELETE is issued with an explicit 305 second client-side
timeout; it is retried only on HTTP-level failures with a bound of 10
attempts, and any other failure kind from the DELETE propagates
immediately after a single attempt. -/
theorem delete_environment_assignment_retry_policy (config : EnvironmentConfig)
    (w : DeleteWorld) :
    ((∀ k, w.deleteResult k = Except.error Failure.httpError) →
      delete_environment_assignment config w =
        ⟨Except.error Failure.retryExhausted,
          List.replicate 10
            (Event.httpDelete config.controllers.region_api_server.base_url
              "/api/region" 305),
          config⟩) ∧
    (∀ f, w.deleteResult 0 = Except.error f → f ≠ Failure.httpError →
      delete_environment_assignment config w =
        ⟨Except.error f,
          [Event.httpDelete config.controllers.region_api_server.base_url
            "/api/region" 305],
          config⟩) := by
  constructor
  · intro h
    have hretry := retry_exhausts
      (fun k => (w.deleteResult k,
        [Event.httpDelete config.controllers.region_api_server.base_url
          "/api/region" 305]))
      [Failure.httpError] 10
      (fun k _ => ⟨Failure.httpError, by simp, by simpa using h k⟩)
    simp only [delete_environment_assignment]
    rw [hretry, retryTrace_const _
      (Event.httpDelete config.controllers.region_api_server.base_url
        "/api/region" 305) (fun _ => rfl) 10 0]
  · intro f hf hne
    have hretry := retry_error_at
      (fun k => (w.deleteResult k,
        [Event.httpDelete config.controllers.region_api_server.base_url
          "/api/region" 305]))
      [Failure.httpError] 10 0 f (by decide)
      (fun k hk => absurd hk (by omega)) (by simpa using hf) (by simpa using hne)
    simp only [delete_environment_assignment]
    rw [hretry]
    simp [retryTrace]

/-- Witness for C7: ten failing HTTP attempts exhaust the DELETE retry with
a 305 second timeout on each, while a `ValueError` from the first attempt
propagates immediately. -/
theorem delete_environment_assignment_retry_policy_witness :
    (delete_environment_assignment testConfig
        ⟨fun _ => Except.error Failure.httpError, none, none, none⟩ =
      ⟨Except.error Failure.retryExhausted,
        List.replicate 10 (Event.httpDelete "http://region-api" "/api/region" 305),
        testConfig⟩) ∧
    (delete_environment_assignment testConfig
        ⟨fun _ => Except.error Failure.valueError, none, none, none⟩ =
      ⟨Except.error Failure.valueError,
        [Event.httpDelete "http://region-api" "/api/region" 305],
        testConfig⟩) :=
  ⟨(delete_environment_assignment_retry_policy testConfig _).1 (fun _ => rfl),
   (delete_environment_assignment_retry_policy testConfig _).2
     Failure.valueError rfl (by decide)⟩

/-- C4: `create_environment_assignment` and `delete_environment_assignment`
both derive the assignment id as `organization_id ++ "-0"` and the
environment name as `"environment-" ++ assignment id`, visible in the
resource names their traces address, identically across independent
invocations; organization id "org1" yields "org1-0" and
"environment-org1-0". -/
theorem naming_convention (config : EnvironmentConfig) (wc : CreateWorld)
    (wd : DeleteWorld) (image : Option String) (envRes assignRes : Resource)
    (hpatch : wc.patchResult = Except.ok ())
    (henv : wc.envGet 0 = Except.ok envRes)
    (hassign : wc.assignGet = Except.ok assignRes)
    (hdel : wd.deleteResult 0 = Except.ok ())
    (hns : wd.namespaceGet = none) (henv2 : wd.envGet = none)
    (hassign2 : wd.assignGet = none) :
    (create_environment_assignment config wc image).trace =
      [Event.patchRegion config.controllers.region_api_server.base_url "/api/region"
          (match image with
           | some i => [("environmentdImageRef", i)]
           | none => []),
        Event.kubectlGet config.environment_context none "environment"
          (environmentName config.auth.organization_id),
        Event.kubectlGet config.system_context none "environmentassignment"
          (environmentAssignmentId config.auth.organization_id)] ∧
    (delete_environment_assignment config wd).trace =
      [Event.httpDelete config.controllers.region_api_server.base_url
          "/api/region" 305,
        Event.kubectlGetOrNone config.environment_context none "namespace"
          (environmentName config.auth.organization_id),
        Event.kubectlGetOrNone config.environment_context none "environment"
          (environmentName config.auth.organization_id),
        Event.kubectlGetOrNone config.system_context none "environmentassignment"
          (environmentAssignmentId config.auth.organization_id)] ∧
    environmentAssignmentId config.auth.organization_id =
      config.auth.organization_id ++ "-0" ∧
    environmentName config.auth.organization_id =
      "environment-" ++ (config.auth.organization_id ++ "-0") ∧
    environmentAssignmentId "org1" = "org1-0" ∧
    environmentName "org1" = "environment-org1-0" := by
  refine ⟨?_, ?_, rfl, rfl, rfl, rfl⟩
  · have hkr : kubectl_get_retry config.environment_context none "environment"
        (environmentName config.auth.organization_id) wc.envGet 10 =
        (Except.ok envRes,
          [Event.kubectlGet config.environment_context none "environment"
            (environmentName config.auth.organization_id)]) := by
      unfold kubectl_get_retry
      have h1 := retry_success_at
        (fun k => (wc.envGet k,
          [Event.kubectlGet config.environment_context none "environment"
            (environmentName config.auth.organization_id)]))
        [Failure.notFound] 10 0 envRes (by decide)
        (fun k hk => absurd hk (by omega)) henv
      simpa [retryTrace] using h1
    simp only [create_environment_assignment]
    rw [hpatch]
    dsimp only
    rw [hkr]
    dsimp only
    rw [hassign]
    simp
  · have hretry : retry
        (fun k => (wd.deleteResult k,
          [Event.httpDelete config.controllers.region_api_server.base_url
            "/api/region" 305])) 10 [Failure.httpError] =
        (Except.ok (),
          [Event.httpDelete config.controllers.region_api_server.base_url
            "/api/region" 305]) := by
      have h1 := retry_success_at
        (fun k => (wd.deleteResult k,
          [Event.httpDelete config.controllers.region_api_server.base_url
            "/api/region" 305]))
        [Failure.httpError] 10 0 () (by decide)
        (fun k hk => absurd hk (by omega)) hdel
      simpa [retryTrace] using h1
    simp only [delete_environment_assignment]
    rw [hretry]
    dsimp only
    rw [hns]
    dsimp only
    rw [henv2]
    dsimp only
    rw [hassign2]
    simp

/-- Witness for C4: with organization id "org1", a successful create and a
successful delete address the resource store under exactly "org1-0" and
"environment-org1-0". -/
theorem naming_convention_witness :
    (create_environment_assignment testConfig
        ⟨Except.ok (), fun _ => Except.ok [], Except.ok []⟩ none).trace =
      [Event.patchRegion "http://region-api" "/api/region" [],
        Event.kubectlGet "env-ctx" none "environment" "environment-org1-0",
        Event.kubectlGet "sys-ctx" none "environmentassignment" "org1-0"] ∧
    (delete_environment_assignment testConfig
        ⟨fun _ => Except.ok (), none, none, none⟩).trace =
      [Event.httpDelete "http://region-api" "/api/region" 305,
        Event.kubectlGetOrNone "env-ctx" none "namespace" "environment-org1-0",
        Event.kubectlGetOrNone "env-ctx" none "environment" "environment-org1-0",
        Event.kubectlGetOrNone "sys-ctx" none "environmentassignment" "org1-0"] ∧
    environmentAssignmentId "org1" = "org1-0" ∧
    environmentName "org1" = "environment-org1-0" := by
  have h := naming_convention testConfig
    ⟨Except.ok (), fun _ => Except.ok [], Except.ok []⟩
    ⟨fun _ => Except.ok (), none, none, none⟩ none [] []
    rfl rfl rfl rfl rfl rfl rfl
  exact ⟨h.1, h.2.1, h.2.2.2.2.1, h.2.2.2.2.2⟩

/-- C5: for every operation, budget and tolerated-kind set, an invocation
failing with a non-tolerated kind makes `retry` propagate that original
failure at its first occurrence, with zero additional attempts after it. -/
theorem retry_nontolerated_propagates {α : Type} (op : Nat → Except Failure α)
    (budget : Nat) (tolerated : List Failure) (K : Nat) (f : Failure)
    (hK : K < budget)
    (hpre : ∀ k < K, ∃ g ∈ tolerated, op k = Except.error g)
    (herr : op K = Except.error f) (hnt : f ∉ tolerated) :
    (retryPure op budget tolerated).1 = Except.error f ∧
    (retryPure op budget tolerated).2.length = K + 1 := by
  have h1 := retry_error_at (fun k => (op k, [k])) tolerated budget K f hK
    (fun k hk => by
      obtain ⟨g, hg, he⟩ := hpre k hk
      exact ⟨g, hg, by simpa using he⟩)
    (by simpa using herr) hnt
  unfold retryPure
  rw [h1]
  refine ⟨rfl, ?_⟩
  simp [retryTrace_length (fun k => (op k, [k])) (fun _ => rfl) K 0]

/-- Witness for C5: under tolerated kind `notFound`, a first `notFound`
then an `httpError` stop the retry at the second attempt with the original
`httpError`. -/
theorem retry_nontolerated_propagates_witness :
    (retryPure
        (fun k => if k = 0 then Except.error Failure.notFound
                  else (Except.error Failure.httpError : Except Failure Unit))
        5 [Failure.notFound]).1 = Except.error Failure.httpError ∧
    (retryPure
        (fun k => if k = 0 then Except.error Failure.notFound
                  else (Except.error Failure.httpError : Except Failure Unit))
        5 [Failure.notFound]).2.length = 1 + 1 :=
  retry_nontolerated_propagates _ 5 [Failure.notFound] 1 Failure.httpError
    (by decide)
    (by
      intro k hk
      have hk0 : k = 0 := by omega
      subst hk0
      exact ⟨Failure.notFound, by simp, rfl⟩)
    rfl (by decide)

/-- C6: `retry` applied to an operation that always fails with a tolerated
kind raises `RetryExhausted` after exactly the budgeted number of attempts. -/
theorem retry_exhausts_budget {α : Type} (op : Nat → Except Failure α)
    (budget : Nat) (tolerated : List Failure)
    (h : ∀ k, ∃ f ∈ tolerated, op k = Except.error f) :
    (retryPure op budget tolerated).1 = Except.error Failure.retryExhausted ∧
    (retryPure op budget tolerated).2.length = budget := by
  have h1 := retry_exhausts (fun k => (op k, [k])) tolerated budget
    (fun k _ => by
      obtain ⟨f, hf, he⟩ := h k
      exact ⟨f, hf, by simpa using he⟩)
  unfold retryPure
  rw [h1]
  exact ⟨rfl, retryTrace_length (fun k => (op k, [k])) (fun _ => rfl) budget 0⟩

/-- Witness for C6: an operation that always fails with the tolerated
`assertionError` exhausts a budget of 3 in exactly 3 attempts. -/
theorem retry_exhausts_budget_witness :
    (retryPure (fun _ => (Except.error Failure.assertionError : Except Failure Unit))
        3 [Failure.assertionError]).1 = Except.error Failure.retryExhausted ∧
    (retryPure (fun _ => (Except.error Failure.assertionError : Except Failure Unit))
        3 [Failure.assertionError]).2.length = 3 :=
  retry_exhausts_budget _ 3 [Failure.assertionError]
    (fun _ => ⟨Failure.assertionError, by simp, rfl⟩)

/-- C9: none of the three lifecycle operations mutates the config passed to
it: whatever the external world does, the config each operation leaves
behind is the one it received. -/
theorem operations_never_mutate_config (config : EnvironmentConfig)
    (wc : CreateWorld) (ww : WaitWorld) (wd : DeleteWorld)
    (image : Option String) :
    (create_environment_assignment config wc image).config = config ∧
    (wait_for_environmentd config ww).config = config ∧
    (delete_environment_assignment config wd).config = config := by
  refine ⟨?_, ?_, ?_⟩
  · unfold create_environment_assignment
    dsimp only
    repeat' (first | rfl | split)
  · unfold wait_for_environmentd
    dsimp only
    repeat' (first | rfl | split)
  · unfold delete_environment_assignment
    dsimp only
    repeat' (first | rfl | split)
